import Mathlib

/-!
Verification of the MedMatch AI client-side trial-search workflow.

The development shallowly embeds the TypeScript sources:
- `src/frontend/src/services/api.ts` (Gateway Client: `request`,
  `transformPatientData`, `matchTrials`, `processNaturalLanguage`),
- `src/frontend/src/components/trials/TrialList.tsx` (defensive variant:
  `validTrials`, sorting, rendered count),
- `src/frontend/src/pages/TrialSearch.tsx` (`handleNaturalLanguageSubmit`),
- the saved-trials save flow (`onSave` in the results page) together with the
  `saved_trials` table and its `UNIQUE(user_id, trial_id)` constraint from the
  database initialization SQL.

JavaScript values are modelled by an inductive `Json` type with explicit
`undefined`, and JavaScript truthiness is modelled by `Json.truthy`.
-/

/-- Model of a JavaScript/JSON value. `undefined` models the JavaScript value
`undefined` (the result of reading an absent property); numbers are modelled
as rationals. -/
inductive Json where
  | undefined : Json
  | null : Json
  | bool (b : Bool) : Json
  | num (q : Rat) : Json
  | str (s : String) : Json
  | arr (elems : List Json) : Json
  | obj (fields : List (String × Json)) : Json
deriving Repr

/-- JavaScript truthiness: `undefined`, `null`, `false`, `0` and `""` are
falsy; every object and array (even empty) is truthy. -/
def Json.truthy : Json → Bool
  | .undefined => false
  | .null => false
  | .bool b => b
  | .num q => q != 0
  | .str s => s != ""
  | .arr _ => true
  | .obj _ => true

/-- Property read `j[k]`: the value of the first field named `k` of an object,
and `undefined` otherwise (as for property access on a primitive). -/
def Json.getF : Json → String → Json
  | .obj fields, k =>
    match fields.find? (fun p => p.1 == k) with
    | some p => p.2
    | none => .undefined
  | _, _ => .undefined

/-- Whether an object value has a field named `k` (the `k in j` test). -/
def Json.hasKey : Json → String → Bool
  | .obj fields, k => fields.any (fun p => p.1 == k)
  | _, _ => false

mutual

/-- JavaScript string conversion `String(v)`, used when an `Error` is
constructed from a non-string value. -/
def jsToString : Json → String
  | .undefined => "undefined"
  | .null => "null"
  | .bool b => if b then "true" else "false"
  | .num q => toString q
  | .str s => s
  | .arr xs => String.intercalate "," (jsToStringList xs)
  | .obj _ => "[object Object]"

/-- String conversion of the elements of an array, for `jsToString`. -/
def jsToStringList : List Json → List String
  | [] => []
  | x :: xs => jsToString x :: jsToStringList xs

end

/-! ### Gateway Client (`src/frontend/src/services/api.ts`) -/

/-- An outbound HTTP request as assembled by the `ApiClient` methods. -/
structure HttpRequest where
  method : String
  endpoint : String
  authHeader : Option String
  body : Option Json
deriving Repr

/-- An HTTP response as seen by `ApiClient.request`: the status code and the
result of attempting to parse the body as JSON (`none` when parsing fails). -/
structure HttpResponse where
  status : Nat
  body : Option Json
deriving Repr

/-- `response.ok` of the fetch API: status in the range 200-299. -/
def HttpResponse.ok (r : HttpResponse) : Bool :=
  200 ≤ r.status && r.status < 300

/-- `ApiClient.request` (api.ts lines 14-34): on a non-ok response, parse the
error body (falling back to `{ message: "Unknown error" }` when the body does
not parse) and throw an `Error` whose message is `error.message` when truthy
and `"HTTP error! status: <status>"` otherwise; on an ok response return the
parsed JSON body.  On an ok response whose body does not parse, the source
`response.json()` promise rejects with a `SyntaxError`; that exception is
modelled by a fixed error string and is outside the normalization paths. -/
def request (r : HttpResponse) : Except String Json :=
  if r.ok then
    match r.body with
    | some j => .ok j
    | none => .error "SyntaxError: the response body is not valid JSON"
  else
    let errBody := r.body.getD (.obj [("message", .str "Unknown error")])
    let m := errBody.getF "message"
    .error (if m.truthy then jsToString m else "HTTP error! status: " ++ toString r.status)

/-! ### Patient-Data Transform (`transformPatientData`, api.ts lines 59-117) -/

/-- Guard of the demographics group:
`frontendData.age || frontendData.gender || frontendData.location`. -/
def demoGuard (d : Json) : Bool :=
  (d.getF "age").truthy || (d.getF "gender").truthy || (d.getF "location").truthy

/-- Guard of the step that creates `medical_history` from diagnosis data:
`frontendData.diagnosis || frontendData.comorbidities || frontendData.biomarkers`. -/
def mhGuard (d : Json) : Bool :=
  (d.getF "diagnosis").truthy || (d.getF "comorbidities").truthy || (d.getF "biomarkers").truthy

/-- The `demographics` group: `age`, `gender` and `location` are each copied
only when truthy. -/
def demographicsObj (d : Json) : Json :=
  .obj ((if (d.getF "age").truthy then [("age", d.getF "age")] else []) ++
        (if (d.getF "gender").truthy then [("gender", d.getF "gender")] else []) ++
        (if (d.getF "location").truthy then [("location", d.getF "location")] else []))

/-- The diagnosis-derived fields of `medical_history`: `diagnosis`,
`biomarkers` and `comorbidities`, each copied only when truthy. -/
def diagnosisFields (d : Json) : List (String × Json) :=
  (if (d.getF "diagnosis").truthy then [("diagnosis", d.getF "diagnosis")] else []) ++
  (if (d.getF "biomarkers").truthy then [("biomarkers", d.getF "biomarkers")] else []) ++
  (if (d.getF "comorbidities").truthy then [("comorbidities", d.getF "comorbidities")] else [])

/-- The `treatment_history` object built from `frontendData.treatments`:
`{ current, previous, response }` with absent members read as `undefined`. -/
def treatmentHistoryObj (d : Json) : Json :=
  .obj [("current", (d.getF "treatments").getF "current"),
        ("previous", (d.getF "treatments").getF "previous"),
        ("response", (d.getF "treatments").getF "response")]

/-- One medication entry of the `current_medications` list:
`typeof med === "string" ? med : med.name`. -/
def medName : Json → Json
  | .str s => .str s
  | m => m.getF "name"

/-- `treatments.current.map(medName)`.  A truthy non-array value of
`treatments.current` raises a `TypeError` in the source; that case is
unreachable in every property below and is mapped to `undefined`. -/
def currentMedications : Json → Json
  | .arr meds => .arr (meds.map medName)
  | _ => .undefined

/-- The full contents of `medical_history`: the diagnosis-derived fields when
their guard fired, plus `treatment_history` when `treatments` is truthy. -/
def medicalHistoryObj (d : Json) : Json :=
  .obj ((if mhGuard d then diagnosisFields d else []) ++
        (if (d.getF "treatments").truthy then [("treatment_history", treatmentHistoryObj d)] else []))

/-- `ApiClient.transformPatientData` (api.ts lines 59-117): when
`medical_query` or `clinical_notes` is truthy the input is returned as-is;
otherwise the structured input is regrouped into `demographics`,
`medical_history`, `current_medications` and `allergies`.  When the diagnosis
guard did not fire but `treatments` is truthy, the source creates
`medical_history` last, after `allergies`; the final slot mirrors that. -/
def transformPatientData (d : Json) : Json :=
  if (d.getF "medical_query").truthy || (d.getF "clinical_notes").truthy then d
  else
    .obj ((if demoGuard d then [("demographics", demographicsObj d)] else []) ++
          (if mhGuard d then [("medical_history", medicalHistoryObj d)] else []) ++
          (if ((d.getF "treatments").getF "current").truthy then
             [("current_medications", currentMedications ((d.getF "treatments").getF "current"))]
           else []) ++
          (if (d.getF "allergies").truthy then [("allergies", d.getF "allergies")] else []) ++
          (if (d.getF "treatments").truthy && !(mhGuard d) then
             [("medical_history", medicalHistoryObj d)] else []))

/-- `ApiClient.matchTrials` (api.ts lines 42-56): transform the patient data
and POST it to `/api/v1/match` with the fixed parameters `max_results = 3`,
`min_confidence = 0.5` and `enable_advanced_reasoning = true`, attaching a
bearer token when present. -/
def matchTrials (patientData : Json) (token : Option String) : HttpRequest :=
  { method := "POST"
    endpoint := "/api/v1/match"
    authHeader := token.map (fun t => "Bearer " ++ t)
    body := some (.obj [
      ("patient_data", transformPatientData patientData),
      ("max_results", .num 3),
      ("min_confidence", .num (1 / 2)),
      ("enable_advanced_reasoning", .bool true)]) }

/-- `ApiClient.processNaturalLanguage` (api.ts lines 119-133): no request is
issued (the first component is the list of HTTP requests performed, which is
empty); a patient-data object carrying the raw text under `medical_query` and
`clinical_notes` is fabricated locally and returned. -/
def processNaturalLanguage (text : String) : List HttpRequest × Json :=
  ([], .obj [
    ("medical_query", .str text),
    ("clinical_notes", .str text),
    ("age", .null),
    ("gender", .null),
    ("location", .obj []),
    ("diagnosis", .obj []),
    ("treatments", .obj [("current", .arr []), ("previous", .arr [])])])

/-! ### Trial list rendering (`TrialList.tsx`, defensive variant) -/

/-- A trial location as rendered by the results list; `distance` is optional
because malformed backend entries may omit it. -/
structure TrialLocation where
  facility : String
  city : String
  state : String
  distance : Option Rat
deriving DecidableEq, Repr

/-- A trial match entry as rendered by the results list; `matchScore` and
`location` are optional because malformed entries may omit them. -/
structure TrialMatch where
  id : String
  nctId : String
  title : String
  matchScore : Option Rat
  location : Option TrialLocation
deriving DecidableEq, Repr

/-- The defensive filter predicate of `TrialList`: an entry passes when it is
a non-null object whose `matchScore`, `location` and `location.distance` are
all defined.  A `none` list element models a `null`/`undefined` entry. -/
def isValidTrial : Option TrialMatch → Bool
  | none => false
  | some t =>
    t.matchScore.isSome &&
    (match t.location with
     | none => false
     | some loc => loc.distance.isSome)

/-- `validTrials` of `TrialList`: the input trial list with malformed entries
dropped. -/
def validTrials (trials : List (Option TrialMatch)) : List (Option TrialMatch) :=
  trials.filter isValidTrial

/-- Sort key of the match-score comparator: `(t.matchScore || 0)`. -/
def matchKey : Option TrialMatch → Rat
  | some t => t.matchScore.getD 0
  | none => 0

/-- Sort key of the distance comparator: `(t.location?.distance || 0)`. -/
def distKey : Option TrialMatch → Rat
  | some t =>
    match t.location with
    | some loc => loc.distance.getD 0
    | none => 0
  | none => 0

/-- Descending order on a rational key: `a` may precede `b` when the key of
`b` is at most the key of `a`.  The comparator `(b.key - a.key)` of the
source induces exactly this total preorder. -/
def keyedGE {α : Type} (k : α → Rat) (a b : α) : Prop := k b ≤ k a

/-- Ascending order on a rational key, induced by the comparator
`(a.key - b.key)` of the source. -/
def keyedLE {α : Type} (k : α → Rat) (a b : α) : Prop := k a ≤ k b

instance {α : Type} (k : α → Rat) : DecidableRel (keyedGE k) :=
  fun a b => inferInstanceAs (Decidable (k b ≤ k a))

instance {α : Type} (k : α → Rat) : DecidableRel (keyedLE k) :=
  fun a b => inferInstanceAs (Decidable (k a ≤ k b))

instance {α : Type} (k : α → Rat) : IsTotal α (keyedGE k) :=
  ⟨fun a b => le_total (k b) (k a)⟩

instance {α : Type} (k : α → Rat) : IsTotal α (keyedLE k) :=
  ⟨fun a b => le_total (k a) (k b)⟩

instance {α : Type} (k : α → Rat) : IsTrans α (keyedGE k) :=
  ⟨fun _ _ _ h1 h2 => le_trans h2 h1⟩

instance {α : Type} (k : α → Rat) : IsTrans α (keyedLE k) :=
  ⟨fun _ _ _ h1 h2 => le_trans h1 h2⟩

/-- The two values of the `sortBy` selector of `TrialList`. -/
inductive SortBy where
  | byMatch : SortBy
  | byDistance : SortBy
deriving DecidableEq, Repr

/-- `useState` initial value of the selector: `"match"` (best match). -/
def defaultSortBy : SortBy := .byMatch

/-- The sort applied by `TrialList`: `Array.prototype.sort` with the selected
comparator.  ECMAScript sorting is stable, and a stable sort with respect to
a total preorder has a unique result, realized here by insertion sort. -/
def sortTrials (mode : SortBy) (l : List (Option TrialMatch)) : List (Option TrialMatch) :=
  match mode with
  | .byMatch => List.insertionSort (keyedGE matchKey) l
  | .byDistance => List.insertionSort (keyedLE distKey) l

/-- `sortedTrials` of `TrialList`: the filtered list, sorted. -/
def sortedTrials (mode : SortBy) (trials : List (Option TrialMatch)) :
    List (Option TrialMatch) :=
  sortTrials mode (validTrials trials)

/-- The number rendered as `Found N matching trials`: the length of the
filtered list. -/
def foundCount (trials : List (Option TrialMatch)) : Nat :=
  (validTrials trials).length

/-! ### Saved trials: persistence constraint and client save flow -/

/-- A row of the `saved_trials` table, keyed by the pair constrained unique
by `UNIQUE(user_id, trial_id)` in the database initialization SQL. -/
structure SavedRow where
  user_id : String
  trial_id : String
deriving DecidableEq, Repr

/-- Whether the table already holds a row for the given (user, trial) pair. -/
def hasSavedRow (rows : List SavedRow) (u t : String) : Bool :=
  rows.any (fun r => r.user_id == u && r.trial_id == t)

/-- An INSERT into `saved_trials`: rejected with a duplicate-key error when a
row with the same `(user_id, trial_id)` already exists, as enforced by the
`UNIQUE(user_id, trial_id)` table constraint; otherwise the row is appended. -/
def insertSavedTrial (rows : List SavedRow) (u t : String) : Except String (List SavedRow) :=
  if hasSavedRow rows u t then .error "duplicate key value violates unique constraint"
  else .ok (rows ++ [⟨u, t⟩])

/-- The observable outcome of one save action: the local saved flag for the
trial, the table contents, and the user-visible notice. -/
structure SaveOutcome where
  isSaved : Bool
  rows : List SavedRow
  notice : String
deriving DecidableEq, Repr

/-- The `onSave` handler of the results page: when the local flag already
marks the trial saved, alert and do nothing; otherwise call `saveTrial` (an
INSERT) and set the flag on success, alerting on failure. -/
def onSave (isSaved : Bool) (rows : List SavedRow) (u t : String) : SaveOutcome :=
  if isSaved then
    { isSaved := isSaved, rows := rows, notice := "This trial is already saved!" }
  else
    match insertSavedTrial rows u t with
    | .ok rows2 => { isSaved := true, rows := rows2, notice := "Trial saved successfully!" }
    | .error _ =>
      { isSaved := isSaved, rows := rows, notice := "Failed to save trial. Please try again." }

/-- One transition of the `saved_trials` table: a save attempt through
`onSave` (with an arbitrary local-flag value, covering stale flags and
multiple sessions), or a removal (`DELETE /saved-trials/:id`). -/
inductive DbStep : List SavedRow → List SavedRow → Prop where
  | save (flag : Bool) (u t : String) (rows : List SavedRow) :
      DbStep rows (onSave flag rows u t).rows
  | remove (u t : String) (rows : List SavedRow) :
      DbStep rows (rows.filter (fun r => !(r.user_id == u && r.trial_id == t)))

/-- Table states reachable from the empty table by save and remove actions. -/
inductive ReachableDb : List SavedRow → Prop where
  | init : ReachableDb []
  | step {s s' : List SavedRow} : ReachableDb s → DbStep s s' → ReachableDb s'

/-- The invariant: at most one row per (user, trial) pair. -/
def savedTrialUnique (rows : List SavedRow) : Prop :=
  ∀ u t : String, (rows.filter (fun r => r.user_id == u && r.trial_id == t)).length ≤ 1

/-! ### Intake workflow (`TrialSearch.tsx`) -/

/-- The fabricated structured payload of `handleNaturalLanguageSubmit`
(TrialSearch.tsx lines 15-22): the raw text becomes the cancer type, `age` is
`0`, and no `medical_query`/`clinical_notes` field is present. -/
def naturalLanguageData (text : String) : Json :=
  .obj [
    ("age", .num 0),
    ("gender", .str "other"),
    ("location", .obj [("city", .str ""), ("state", .str ""), ("zipCode", .str "")]),
    ("diagnosis", .obj [("cancerType", .str text), ("stage", .str "1")]),
    ("treatments", .obj [("current", .arr []), ("previous", .arr [])]),
    ("naturalLanguageQuery", .str text)]

/-- Fallback alert text of the intake submit handlers. -/
def matchFailAlert : String := "Failed to find matching trials. Please try again."

/-- The state of the intake workflow after a submit handler has settled:
which alert was shown, whether a search-history row was inserted, whether the
app navigated to the results view, and whether the form still shows the
processing state (`isMatching`, false once the mutation settles). -/
structure IntakeOutcome where
  alertMsg : Option String
  historySaved : Bool
  navigatedToResults : Bool
  processing : Bool
deriving DecidableEq, Repr

/-- `handleNaturalLanguageSubmit` (TrialSearch.tsx lines 13-41) as a function
of the outcomes of its two awaited effects: on a match failure the catch
block alerts `error.message || matchFailAlert` and nothing else happens; on a
match success followed by a history-insert failure the same catch applies; on
success of both, the page navigates to the results view. -/
def handleNaturalLanguageSubmit (matchResult : Except String Json)
    (saveResult : Except String Unit) : IntakeOutcome :=
  match matchResult with
  | .error e =>
    { alertMsg := some (if e != "" then e else matchFailAlert)
      historySaved := false
      navigatedToResults := false
      processing := false }
  | .ok _ =>
    match saveResult with
    | .error e =>
      { alertMsg := some (if e != "" then e else matchFailAlert)
        historySaved := false
        navigatedToResults := false
        processing := false }
    | .ok _ =>
      { alertMsg := none
        historySaved := true
        navigatedToResults := true
        processing := false }

/-! ### Helper lemmas on the JSON model -/

theorem Json.getF_of_not_truthy {j : Json} (k : String) (h : j.truthy = false) :
    j.getF k = .undefined := by
  cases j <;> simp_all [Json.truthy, Json.getF]

theorem Json.hasKey_obj_append (fs gs : List (String × Json)) (k : String) :
    (Json.obj (fs ++ gs)).hasKey k = ((Json.obj fs).hasKey k || (Json.obj gs).hasKey k) := by
  simp [Json.hasKey, List.any_append]

theorem Json.getF_obj_append_left {fs : List (String × Json)} (gs : List (String × Json))
    {k : String} (h : (Json.obj fs).hasKey k = false) :
    (Json.obj (fs ++ gs)).getF k = (Json.obj gs).getF k := by
  have hf : fs.find? (fun p => p.1 == k) = none := by
    rw [List.find?_eq_none]
    intro p hp
    simp only [Json.hasKey] at h
    have := (List.any_eq_false.mp h) p hp
    simpa using this
  simp [Json.getF, List.find?_append, hf]

theorem Json.getF_obj_cons_self (k : String) (v : Json) (fs : List (String × Json)) :
    (Json.obj ((k, v) :: fs)).getF k = v := by
  simp [Json.getF, List.find?_cons_of_pos]

theorem Json.getF_eq_undefined_of_not_hasKey {j : Json} {k : String} (h : j.hasKey k = false) :
    j.getF k = .undefined := by
  cases j with
  | obj fs =>
    have hf : fs.find? (fun p => p.1 == k) = none := by
      rw [List.find?_eq_none]
      intro p hp
      simp only [Json.hasKey] at h
      have := (List.any_eq_false.mp h) p hp
      simpa using this
    simp [Json.getF, hf]
  | _ => rfl

theorem Json.hasKey_of_getF_ne_undefined {j : Json} {k : String} (h : j.getF k ≠ .undefined) :
    j.hasKey k = true := by
  cases hh : j.hasKey k with
  | true => rfl
  | false => exact absurd (Json.getF_eq_undefined_of_not_hasKey hh) h

/-! ### Claim C1: pass-through of natural-language payloads -/

/-- Claim C1, as stated, is false: this input contains a `medical_query`
field, but its value is the empty string, which is falsy, so the transform
restructures the input instead of passing it through. -/
theorem c1_passthrough_counterexample :
    transformPatientData (Json.obj [("medical_query", .str ""), ("age", .num 1)]) ≠
      Json.obj [("medical_query", .str ""), ("age", .num 1)] := by
  intro h
  have hL : (transformPatientData
      (Json.obj [("medical_query", .str ""), ("age", .num 1)])).hasKey "medical_query" = false := by
    decide
  rw [h] at hL
  have hR : (Json.obj [("medical_query", .str ""), ("age", .num 1)]).hasKey "medical_query" =
      true := by decide
  rw [hR] at hL
  exact Bool.noConfusion hL

/-- Claim C1 (amended): for every input whose `medical_query` or
`clinical_notes` field holds a truthy value (any non-empty string), the
Patient-Data Transform is a strict pass-through, so `matchTrials` dispatches
such payloads verbatim. -/
theorem c1_passthrough_of_truthy (d : Json)
    (h : ((d.getF "medical_query").truthy || (d.getF "clinical_notes").truthy) = true) :
    transformPatientData d = d := by
  unfold transformPatientData
  rw [if_pos h]

/-- Claim C1 witness: a concrete natural-language payload is passed through. -/
theorem c1_passthrough_witness :
    transformPatientData (Json.obj [("medical_query", .str "lung cancer stage 2")]) =
      Json.obj [("medical_query", .str "lung cancer stage 2")] :=
  c1_passthrough_of_truthy _ (by decide)

/-! ### Claim C2: error normalization in the Gateway Client -/

/-- Claim C2: every non-2xx response makes `request` fail with a single
string message (never a raw parsed object); when the error body parses to an
object with a non-empty string `message`, that message is used; when no body
can be parsed, the fallback is exactly `"Unknown error"`; and a 2xx response
returns the parsed JSON body. -/
theorem c2_request_error_normalization (r : HttpResponse) :
    (r.ok = false → ∃ m : String, request r = .error m) ∧
    (r.ok = false → ∀ (b : Json) (s : String), r.body = some b →
      b.getF "message" = .str s → s ≠ "" → request r = .error s) ∧
    (r.ok = false → r.body = none → request r = .error "Unknown error") ∧
    (r.ok = true → ∀ j : Json, r.body = some j → request r = .ok j) := by
  refine ⟨?_, ?_, ?_, ?_⟩
  · intro h
    unfold request
    rw [if_neg (by simp [h])]
    exact ⟨_, rfl⟩
  · intro h b s hb hm hs
    unfold request
    rw [if_neg (by simp [h]), hb]
    simp only [Option.getD_some, hm]
    have ht : (Json.str s).truthy = true := by simp [Json.truthy, hs]
    rw [if_pos ht]
    simp [jsToString]
  · intro h hb
    unfold request
    rw [if_neg (by simp [h]), hb]
    rfl
  · intro h j hb
    unfold request
    rw [if_pos h, hb]

/-- Claim C2 witness: concrete instances of the three normalization paths. -/
theorem c2_request_witness :
    request { status := 500, body := some (Json.obj [("message", .str "backend overloaded")]) } =
      .error "backend overloaded" ∧
    request { status := 404, body := none } = .error "Unknown error" ∧
    request { status := 200, body := some (Json.obj [("status", .str "healthy")]) } =
      .ok (Json.obj [("status", .str "healthy")]) :=
  ⟨(c2_request_error_normalization _).2.1 (by decide) _ "backend overloaded" rfl rfl (by decide),
   (c2_request_error_normalization _).2.2.1 (by decide) rfl,
   (c2_request_error_normalization _).2.2.2 (by decide) _ rfl⟩

/-! ### Claim C4: the match request -/

/-- Claim C4: `matchTrials` issues a POST to the match endpoint whose body
carries the (possibly transformed) patient data with the fixed parameters
`max_results = 3`, `min_confidence = 0.5` and `enable_advanced_reasoning =
true`, and on a 2xx response the parsed envelope is returned unchanged. -/
theorem c4_match_request_shape (d : Json) (tok : Option String) (r : HttpResponse)
    (env : Json) (hok : r.ok = true) (hbody : r.body = some env) :
    (matchTrials d tok).method = "POST" ∧
    (matchTrials d tok).endpoint = "/api/v1/match" ∧
    (matchTrials d tok).body = some (.obj [
      ("patient_data", transformPatientData d),
      ("max_results", .num 3),
      ("min_confidence", .num (1 / 2)),
      ("enable_advanced_reasoning", .bool true)]) ∧
    request r = .ok env := by
  refine ⟨rfl, rfl, rfl, ?_⟩
  unfold request
  rw [if_pos hok, hbody]

/-- Claim C4 witness: a concrete match call and a concrete 2xx envelope. -/
theorem c4_match_request_witness :
    (matchTrials (Json.obj [("age", .num 52)]) (some "tok")).endpoint = "/api/v1/match" ∧
    request { status := 200, body := some (Json.obj [("matches", .arr []), ("total", .num 0)]) } =
      .ok (Json.obj [("matches", .arr []), ("total", .num 0)]) := by
  have h := c4_match_request_shape (Json.obj [("age", .num 52)]) (some "tok")
    { status := 200, body := some (Json.obj [("matches", .arr []), ("total", .num 0)]) }
    (Json.obj [("matches", .arr []), ("total", .num 0)]) (by decide) rfl
  exact ⟨h.2.1, h.2.2.2⟩

/-! ### Claim C5: the local natural-language placeholder -/

/-- Claim C5, as stated, fails for the empty input text: the fabricated
object carries `medical_query = ""` and `clinical_notes = ""`, both falsy, so
the transform restructures it instead of short-circuiting. -/
theorem c5_short_circuit_counterexample :
    transformPatientData (processNaturalLanguage "").2 ≠ (processNaturalLanguage "").2 := by
  intro h
  have hL : (transformPatientData (processNaturalLanguage "").2).hasKey "medical_query" =
      false := by decide
  rw [h] at hL
  have hR : ((processNaturalLanguage "").2).hasKey "medical_query" = true := by decide
  rw [hR] at hL
  exact Bool.noConfusion hL

/-- Claim C5 (amended): `processNaturalLanguage` performs no HTTP call and
returns a locally built object whose `medical_query` and `clinical_notes`
both equal the input text; for every non-empty input text, the subsequent
`matchTrials` call short-circuits the Patient-Data Transform. -/
theorem c5_process_natural_language_local (t : String) :
    (processNaturalLanguage t).1 = [] ∧
    (processNaturalLanguage t).2.getF "medical_query" = .str t ∧
    (processNaturalLanguage t).2.getF "clinical_notes" = .str t ∧
    (t ≠ "" → transformPatientData (processNaturalLanguage t).2 = (processNaturalLanguage t).2) := by
  refine ⟨rfl, rfl, rfl, ?_⟩
  intro ht
  have h : (((processNaturalLanguage t).2.getF "medical_query").truthy ||
      ((processNaturalLanguage t).2.getF "clinical_notes").truthy) = true := by
    have he : (processNaturalLanguage t).2.getF "medical_query" = .str t := rfl
    rw [he]
    simp [Json.truthy, ht]
  unfold transformPatientData
  rw [if_pos h]

/-- Claim C5 witness: a concrete non-empty text round-trips through the
placeholder and short-circuits the transform. -/
theorem c5_process_natural_language_witness :
    (processNaturalLanguage "melanoma stage 3").1 = [] ∧
    transformPatientData (processNaturalLanguage "melanoma stage 3").2 =
      (processNaturalLanguage "melanoma stage 3").2 :=
  ⟨(c5_process_natural_language_local "melanoma stage 3").1,
   (c5_process_natural_language_local "melanoma stage 3").2.2.2 (by decide)⟩

/-! ### Claim C8: failure path of the intake workflow -/

/-- Claim C8: when the match call fails with a non-2xx response, `request`
produces a single error message, the workflow alerts that message (or the
fixed fallback when it is empty), no search-history insert happens, no
navigation happens, and the form is back in its non-processing state. -/
theorem c8_match_failure_idle (r : HttpResponse) (save : Except String Unit)
    (hr : r.ok = false) :
    (∀ e : String, handleNaturalLanguageSubmit (.error e) save =
      { alertMsg := some (if e != "" then e else matchFailAlert)
        historySaved := false
        navigatedToResults := false
        processing := false }) ∧
    ∃ m : String, request r = .error m ∧
      handleNaturalLanguageSubmit (request r) save =
        { alertMsg := some (if m != "" then m else matchFailAlert)
          historySaved := false
          navigatedToResults := false
          processing := false } := by
  refine ⟨fun e => rfl, ?_⟩
  obtain ⟨m, hm⟩ : ∃ m : String, request r = .error m := by
    unfold request
    rw [if_neg (by simp [hr])]
    exact ⟨_, rfl⟩
  exact ⟨m, hm, by rw [hm]; rfl⟩

/-- Claim C8 witness: the spec scenario — an HTTP 500 with body
`{"message":"backend overloaded"}` alerts exactly that text and leaves the
workflow idle with no history insert and no navigation. -/
theorem c8_match_failure_witness :
    handleNaturalLanguageSubmit
      (request { status := 500, body := some (Json.obj [("message", .str "backend overloaded")]) })
      (.ok ()) =
      { alertMsg := some "backend overloaded"
        historySaved := false
        navigatedToResults := false
        processing := false } := by
  obtain ⟨-, m, hm, h⟩ := c8_match_failure_idle
    { status := 500, body := some (Json.obj [("message", .str "backend overloaded")]) }
    (.ok ()) (by decide)
  have hme : m = "backend overloaded" := by
    have h0 : request
        { status := 500, body := some (Json.obj [("message", .str "backend overloaded")]) } =
        .error "backend overloaded" := rfl
    rw [h0] at hm
    exact (Except.error.injEq _ _).mp hm.symm
  rw [hme] at h
  simpa using h

/-! ### Key-structure lemmas for the Patient-Data Transform -/

theorem Json.hasKey_obj_if_slot (b : Bool) (k2 : String) (v : Json) (k : String) :
    (Json.obj (if b then [(k2, v)] else [])).hasKey k = (b && (k2 == k)) := by
  cases b <;> simp [Json.hasKey]

/-- The top-level keys of a structured transform output, as a function of the
source guards. -/
theorem transform_hasKey_structured (d : Json) (k : String)
    (hmq : (d.getF "medical_query").truthy = false)
    (hcn : (d.getF "clinical_notes").truthy = false) :
    (transformPatientData d).hasKey k =
      ((demoGuard d && ("demographics" == k)) ||
       (mhGuard d && ("medical_history" == k)) ||
       (((d.getF "treatments").getF "current").truthy && ("current_medications" == k)) ||
       ((d.getF "allergies").truthy && ("allergies" == k)) ||
       (((d.getF "treatments").truthy && !(mhGuard d)) && ("medical_history" == k))) := by
  unfold transformPatientData
  rw [if_neg (by simp [hmq, hcn])]
  rw [Json.hasKey_obj_append, Json.hasKey_obj_append, Json.hasKey_obj_append,
    Json.hasKey_obj_append]
  rw [Json.hasKey_obj_if_slot, Json.hasKey_obj_if_slot, Json.hasKey_obj_if_slot,
    Json.hasKey_obj_if_slot, Json.hasKey_obj_if_slot]

/-- The keys of the demographics group, as a function of the source guards. -/
theorem demographicsObj_hasKey (d : Json) (k : String) :
    (demographicsObj d).hasKey k =
      (((d.getF "age").truthy && ("age" == k)) ||
       ((d.getF "gender").truthy && ("gender" == k)) ||
       ((d.getF "location").truthy && ("location" == k))) := by
  unfold demographicsObj
  rw [Json.hasKey_obj_append, Json.hasKey_obj_append,
    Json.hasKey_obj_if_slot, Json.hasKey_obj_if_slot, Json.hasKey_obj_if_slot]

/-- When the demographics guard fires on a structured input, the output field
`demographics` is exactly the demographics group. -/
theorem transform_getF_demographics (d : Json)
    (hmq : (d.getF "medical_query").truthy = false)
    (hcn : (d.getF "clinical_notes").truthy = false)
    (hdg : demoGuard d = true) :
    (transformPatientData d).getF "demographics" = demographicsObj d := by
  unfold transformPatientData
  rw [if_neg (by simp [hmq, hcn]), if_pos hdg]
  simp only [List.singleton_append, List.cons_append]
  exact Json.getF_obj_cons_self _ _ _

/-! ### Claim C7: demographics-only inputs -/

/-- Claim C7: for every structured input (no truthy `medical_query` or
`clinical_notes`) whose populated fields are demographic only — the
demographics guard fires and `diagnosis`, `biomarkers`, `comorbidities`,
`treatments` and `allergies` are all absent or falsy — the transform output
contains a `demographics` group and no `medical_history`,
`current_medications` or `allergies` field. -/
theorem c7_demographics_only (d : Json)
    (hmq : (d.getF "medical_query").truthy = false)
    (hcn : (d.getF "clinical_notes").truthy = false)
    (hdemo : demoGuard d = true)
    (hdiag : (d.getF "diagnosis").truthy = false)
    (hbio : (d.getF "biomarkers").truthy = false)
    (hcom : (d.getF "comorbidities").truthy = false)
    (htr : (d.getF "treatments").truthy = false)
    (hall : (d.getF "allergies").truthy = false) :
    (transformPatientData d).hasKey "demographics" = true ∧
    (transformPatientData d).hasKey "medical_history" = false ∧
    (transformPatientData d).hasKey "current_medications" = false ∧
    (transformPatientData d).hasKey "allergies" = false := by
  have hmh : mhGuard d = false := by simp [mhGuard, hdiag, hbio, hcom]
  have hcur : ((d.getF "treatments").getF "current").truthy = false := by
    rw [Json.getF_of_not_truthy _ htr]
    rfl
  refine ⟨?_, ?_, ?_, ?_⟩ <;> rw [transform_hasKey_structured d _ hmq hcn] <;>
    simp [hdemo, hmh, hcur, hall, htr]

/-- Claim C7 witness: a concrete age/gender/location-only input produces a
demographics group and none of the other groups. -/
theorem c7_demographics_only_witness :
    (transformPatientData (Json.obj [("age", .num 52), ("gender", .str "male"),
      ("location", .obj [("city", .str "Boston"), ("state", .str "MA")])])).hasKey
      "demographics" = true ∧
    (transformPatientData (Json.obj [("age", .num 52), ("gender", .str "male"),
      ("location", .obj [("city", .str "Boston"), ("state", .str "MA")])])).hasKey
      "medical_history" = false :=
  ⟨(c7_demographics_only _ (by decide) (by decide) (by decide) (by decide) (by decide)
      (by decide) (by decide) (by decide)).1,
   (c7_demographics_only _ (by decide) (by decide) (by decide) (by decide) (by decide)
      (by decide) (by decide) (by decide)).2.1⟩

/-! ### Claim C10: truthiness-based presence checks drop `age = 0` -/

/-- Claim C10: the transform checks field presence by truthiness, so a
structured input with `age = 0` — exactly the shape the natural-language
submit path fabricates — loses its `age` field: the fabricated payload keeps
a `demographics` group (its gender and location are truthy) but that group
has no `age` key even though the input has one; and for any structured input
with `age = 0` whose gender and location are also absent or falsy, the
`demographics` group is omitted entirely. -/
theorem c10_truthiness_age_omission (t : String) (d : Json)
    (hmq : (d.getF "medical_query").truthy = false)
    (hcn : (d.getF "clinical_notes").truthy = false)
    (hage : d.getF "age" = .num 0) :
    ((transformPatientData (naturalLanguageData t)).getF "demographics").hasKey "age" = false ∧
    (naturalLanguageData t).hasKey "age" = true ∧
    d.hasKey "age" = true ∧
    ((transformPatientData d).getF "demographics").hasKey "age" = false ∧
    ((d.getF "gender").truthy = false → (d.getF "location").truthy = false →
      (transformPatientData d).hasKey "demographics" = false) := by
  have hAgeF : (d.getF "age").truthy = false := by rw [hage]; rfl
  refine ⟨?_, rfl, ?_, ?_, ?_⟩
  · -- the fabricated payload: demographics = { gender, location }, no age
    rfl
  · exact Json.hasKey_of_getF_ne_undefined (by rw [hage]; exact fun h => Json.noConfusion h)
  · by_cases hdg : demoGuard d = true
    · rw [transform_getF_demographics d hmq hcn hdg, demographicsObj_hasKey]
      simp [hAgeF]
    · have hk : (transformPatientData d).hasKey "demographics" = false := by
        rw [transform_hasKey_structured d _ hmq hcn]
        simp [Bool.not_eq_true] at hdg
        simp [hdg]
      rw [Json.getF_eq_undefined_of_not_hasKey hk]
      rfl
  · intro hg hl
    have hdg : demoGuard d = false := by simp [demoGuard, hAgeF, hg, hl]
    rw [transform_hasKey_structured d _ hmq hcn]
    simp [hdg]

/-- Claim C10 witness: the fabricated natural-language payload and a concrete
all-falsy-demographics input. -/
theorem c10_truthiness_age_omission_witness :
    ((transformPatientData (naturalLanguageData "breast cancer")).getF "demographics").hasKey
      "age" = false ∧
    (transformPatientData (Json.obj [("age", .num 0),
      ("diagnosis", .obj [("cancerType", .str "nsclc")])])).hasKey "demographics" = false :=
  ⟨(c10_truthiness_age_omission "breast cancer" (Json.obj [("age", .num 0),
      ("diagnosis", .obj [("cancerType", .str "nsclc")])]) (by decide) (by decide) rfl).1,
   (c10_truthiness_age_omission "breast cancer" (Json.obj [("age", .num 0),
      ("diagnosis", .obj [("cancerType", .str "nsclc")])]) (by decide) (by decide) rfl).2.2.2.2
     (by decide) (by decide)⟩

/-! ### Stability of the trial-list sort -/

/-- Inserting into a descending keyed order passes only over strictly larger
keys, so a filter on any fixed key value sees the inserted element first. -/
theorem filter_orderedInsert_keyedGE {α : Type} (k : α → Rat) (x : α) (l : List α) (s : Rat) :
    (List.orderedInsert (keyedGE k) x l).filter (fun t => decide (k t = s)) =
      (if k x = s then [x] else []) ++ l.filter (fun t => decide (k t = s)) := by
  induction l with
  | nil => by_cases hx : k x = s <;> simp [List.orderedInsert, hx]
  | cons b l ih =>
    by_cases h : keyedGE k x b
    · rw [List.orderedInsert, if_pos h]
      by_cases hx : k x = s <;> simp [List.filter_cons, hx]
    · rw [List.orderedInsert, if_neg h]
      rw [List.filter_cons, List.filter_cons, ih]
      by_cases hb : k b = s
      · by_cases hx : k x = s
        · exact absurd (le_of_eq (hb.trans hx.symm)) h
        · simp [hb, hx]
      · simp [hb]

/-- The trial-list sort is stable: for every key value, the elements carrying
that key keep their relative input order. -/
theorem insertionSort_keyedGE_stable {α : Type} (k : α → Rat) (l : List α) (s : Rat) :
    (List.insertionSort (keyedGE k) l).filter (fun t => decide (k t = s)) =
      l.filter (fun t => decide (k t = s)) := by
  induction l with
  | nil => rfl
  | cons x l ih =>
    rw [List.insertionSort, filter_orderedInsert_keyedGE, ih, List.filter_cons]
    by_cases hx : k x = s <;> simp [hx]

/-! ### Claim C9: sort order, idempotence and stability -/

/-- Claim C9: the default mode sorts by descending match score, the
alternative mode sorts by ascending location distance, sorting by match
score descending is idempotent, and it is stable: entries with equal match
scores keep their relative input order. -/
theorem c9_sort_order (l : List (Option TrialMatch)) :
    defaultSortBy = SortBy.byMatch ∧
    (sortTrials .byMatch l).Sorted (fun a b => matchKey b ≤ matchKey a) ∧
    (sortTrials .byDistance l).Sorted (fun a b => distKey a ≤ distKey b) ∧
    sortTrials .byMatch (sortTrials .byMatch l) = sortTrials .byMatch l ∧
    (∀ s : Rat, (sortTrials .byMatch l).filter (fun t => decide (matchKey t = s)) =
      l.filter (fun t => decide (matchKey t = s))) := by
  refine ⟨rfl, ?_, ?_, ?_, ?_⟩
  · exact List.sorted_insertionSort (keyedGE matchKey) l
  · exact List.sorted_insertionSort (keyedLE distKey) l
  · exact List.Sorted.insertionSort_eq (List.sorted_insertionSort (keyedGE matchKey) l)
  · exact fun s => insertionSort_keyedGE_stable matchKey l s

/-! ### Claim C6: defensive filtering of malformed trial entries -/

/-- A list loses strictly more than zero length under `filter` as soon as one
member fails the predicate. -/
theorem length_filter_lt_of_mem_not {α : Type} (p : α → Bool) {l : List α} {x : α}
    (hx : x ∈ l) (hpx : p x = false) : (l.filter p).length < l.length := by
  induction l with
  | nil => cases hx
  | cons a l ih =>
    rcases List.mem_cons.mp hx with rfl | hx2
    · rw [List.filter_cons, if_neg (by simp [hpx])]
      exact Nat.lt_succ_of_le (List.length_filter_le p l)
    · rw [List.filter_cons]
      by_cases ha : p a = true
      · rw [if_pos (by simp [ha])]
        simpa using Nat.succ_lt_succ (ih hx2)
      · rw [if_neg (by simp [ha])]
        exact Nat.lt_succ_of_lt (ih hx2)

/-- Claim C6: the rendered list keeps exactly the entries with a match score
and a location distance; every malformed entry is excluded from the sorted,
rendered list (totality of the embedding shows nothing throws), and the
rendered count is the filtered length, strictly below the raw input length
whenever a malformed entry is present. -/
theorem c6_defensive_filtering (ts : List (Option TrialMatch)) (mode : SortBy) :
    validTrials ts = ts.filter isValidTrial ∧
    (∀ t ∈ sortedTrials mode ts, isValidTrial t = true) ∧
    (∀ t, isValidTrial t = false → t ∉ sortedTrials mode ts) ∧
    foundCount ts = (ts.filter isValidTrial).length ∧
    (∀ t ∈ ts, isValidTrial t = false → foundCount ts < ts.length) := by
  have hmem : ∀ t, t ∈ sortedTrials mode ts → t ∈ validTrials ts := by
    intro t ht
    cases mode with
    | byMatch => exact (List.mem_insertionSort _).mp ht
    | byDistance => exact (List.mem_insertionSort _).mp ht
  refine ⟨rfl, ?_, ?_, rfl, ?_⟩
  · intro t ht
    exact List.of_mem_filter (hmem t ht)
  · intro t hf hmem2
    have hv := List.of_mem_filter (hmem t hmem2)
    rw [hf] at hv
    exact Bool.noConfusion hv
  · intro t ht hf
    exact length_filter_lt_of_mem_not isValidTrial ht hf

/-- Claim C6 witness: with one malformed entry (no score, no location) and
one well-formed entry, the count is 1 (below the raw length 2) and the
malformed entry is missing from the sorted list. -/
theorem c6_defensive_filtering_witness :
    foundCount [some (TrialMatch.mk "2" "NCT2" "U" none none),
      some (TrialMatch.mk "1" "NCT1" "T" (some 90)
        (some (TrialLocation.mk "F" "C" "S" (some 5))))] < 2 ∧
    some (TrialMatch.mk "2" "NCT2" "U" none none) ∉
      sortedTrials .byMatch [some (TrialMatch.mk "2" "NCT2" "U" none none),
        some (TrialMatch.mk "1" "NCT1" "T" (some 90)
          (some (TrialLocation.mk "F" "C" "S" (some 5))))] := by
  have h := c6_defensive_filtering [some (TrialMatch.mk "2" "NCT2" "U" none none),
    some (TrialMatch.mk "1" "NCT1" "T" (some 90)
      (some (TrialLocation.mk "F" "C" "S" (some 5))))] .byMatch
  exact ⟨h.2.2.2.2 _ (List.mem_cons_self _ _) (by decide), h.2.2.1 _ (by decide)⟩

/-! ### Claim C3: at most one SavedTrial per (user, trial id) pair -/

/-- Appending a row not yet present keeps the uniqueness invariant. -/
theorem savedTrialUnique_insert {rows : List SavedRow} {u t : String}
    (h : savedTrialUnique rows) (hdup : hasSavedRow rows u t = false) :
    savedTrialUnique (rows ++ [⟨u, t⟩]) := by
  intro u2 t2
  rw [List.filter_append, List.length_append]
  by_cases hq : ((⟨u, t⟩ : SavedRow).user_id == u2 && (⟨u, t⟩ : SavedRow).trial_id == t2) = true
  · obtain ⟨rfl, rfl⟩ : u = u2 ∧ t = t2 := by simpa using hq
    have hempty : rows.filter (fun r => r.user_id == u && r.trial_id == t) = [] := by
      rw [List.filter_eq_nil_iff]
      intro r hr
      simpa using List.any_eq_false.mp hdup r hr
    rw [hempty]
    simp
  · have hone : ([(⟨u, t⟩ : SavedRow)].filter (fun r => r.user_id == u2 && r.trial_id == t2)) =
        [] := by
      rw [List.filter_eq_nil_iff]
      intro r hr
      rw [List.mem_singleton.mp hr]
      simpa using hq
    rw [hone]
    simpa using h u2 t2

/-- Every save or remove transition of the `saved_trials` table preserves the
uniqueness invariant: a duplicate insert is rejected by the constraint. -/
theorem savedTrialUnique_dbStep {s s' : List SavedRow} (h : savedTrialUnique s)
    (hs : DbStep s s') : savedTrialUnique s' := by
  cases hs with
  | save flag u t =>
    cases flag with
    | true => simpa [onSave] using h
    | false =>
      by_cases hdup : hasSavedRow s u t = true
      · simpa [onSave, insertSavedTrial, hdup] using h
      · rw [Bool.not_eq_true] at hdup
        have hgoal := savedTrialUnique_insert h hdup
        simpa [onSave, insertSavedTrial, hdup] using hgoal
  | remove u t =>
    intro u2 t2
    have hbase : List.Sublist
        (s.filter (fun r : SavedRow => !(r.user_id == u && r.trial_id == t))) s :=
      List.filter_sublist s
    have hsub := List.Sublist.filter (fun r : SavedRow => r.user_id == u2 && r.trial_id == t2)
      hbase
    exact le_trans (List.Sublist.length_le hsub) (h u2 t2)

/-- Claim C3: every reachable state of the `saved_trials` table has at most
one row per (user, trial id) pair — a duplicate save attempt is either
pre-empted client-side by the already-saved flag or rejected by the
uniqueness constraint; and whenever a row for the pair already exists, a save
action never changes the table, whatever the local flag says. -/
theorem c3_saved_trial_unique :
    (∀ rows : List SavedRow, ReachableDb rows → savedTrialUnique rows) ∧
    (∀ (flag : Bool) (rows : List SavedRow) (u t : String),
      (⟨u, t⟩ : SavedRow) ∈ rows → (onSave flag rows u t).rows = rows) := by
  constructor
  · intro rows hr
    induction hr with
    | init => intro u t; simp
    | step _ hstep ih => exact savedTrialUnique_dbStep ih hstep
  · intro flag rows u t hmem
    cases flag with
    | true => rfl
    | false =>
      have hdup : hasSavedRow rows u t = true := by
        unfold hasSavedRow
        refine List.any_eq_true.2 ⟨⟨u, t⟩, hmem, ?_⟩
        simp
      simp [onSave, insertSavedTrial, hdup]

/-- Claim C3 witness: after two successive saves of the same trial for the
same user starting from an empty table, the invariant holds — and a save of
an already-present pair leaves the table unchanged. -/
theorem c3_saved_trial_unique_witness :
    savedTrialUnique ((onSave false (onSave false [] "user1" "NCT123").rows
      "user1" "NCT123").rows) ∧
    (onSave true [⟨"user1", "NCT123"⟩] "user1" "NCT123").rows = [⟨"user1", "NCT123"⟩] :=
  ⟨c3_saved_trial_unique.1 _
    (ReachableDb.step (ReachableDb.step ReachableDb.init (DbStep.save false "user1" "NCT123" []))
      (DbStep.save false "user1" "NCT123" _)),
   c3_saved_trial_unique.2 true _ "user1" "NCT123" (List.mem_singleton.mpr rfl)⟩
